import Mathlib

/-!
# Verification of `high_polygon_stl_generator.py`

Shallow embedding of the STL generator (file
`src/Scripts/Python/src/high_polygon_stl_generator.py`).  The program builds
a vertex buffer (list of 3D points) and a face buffer (list of index triples)
for two mesh families — an oriented cone model
(`create_directional_model`) and a directional terrain model
(`create_complex_oriented_terrain`) — and serializes them to an STL file.

Embedding conventions:

* Coordinates live in an arbitrary field `F`; the transcendental functions
  `math.pi`, `math.sin`, `math.cos` used by the samplers are abstracted into
  a `GeomOps F` record.  All index/count structure of the generated mesh is
  independent of these values.  Decimal literals of the source are written
  as the corresponding field elements (`0.5` as `1/2`, `0.1` as `1/10`,
  `9.5` as `19/2`, and so on).
* `int(math.sqrt(n / 10))` on a nonnegative integer `n` is embedded as
  `Nat.sqrt (n / 10)` (natural division): for real `x ≥ 0` one has
  `⌊√x⌋ = ⌊√⌊x⌋⌋`, since no perfect square lies strictly between `⌊x⌋` and
  `x`; this is the exact value of the Python expression (Python's float
  rounding cannot move the result for any relevant magnitude, because the
  only inputs for which `√(n/10)` is within float accuracy of an integer
  are those with `n/10` a perfect square, which are computed exactly).
* Python lists with `append` become Lean `List`s built by `++`/`flatMap`
  in the same order; the running value `len(vertices)` used by the source
  for index offsets becomes `List.length` of the vertex buffer so far.
* The loop bodies at lines 230–239 (arrow patches), 284–293 (spiral
  texture) and 489–507 (axis line quads) all append 4 fresh vertices and
  the two triangles `[v, v+1, v+2], [v+1, v+3, v+2]`; this shared shape is
  factored into `pushCell`/`pushCells` below (a `foldl` over the iteration
  sequence, i.e. exactly the sequential loop).
* `create_complex_oriented_terrain` allocates `z_grid = np.zeros((width,
  height))` (line 349) but increments it with `np.meshgrid` arrays of shape
  `(height, width)` (lines 350–354); NumPy in-place broadcasting raises
  `ValueError` unless `width = height`, and for `width = height = 0` the
  corner-marker lookup `z_grid[0, 0]` (line 381) raises `IndexError`.  The
  embedding therefore returns `Option`: `some` mesh exactly when
  `width = height` and `1 ≤ width`, `none` when the Python code raises.
-/

/-- A 3D point (the source stores `[x, y, z]` lists). -/
structure Point3 (F : Type) where
  x : F
  y : F
  z : F
deriving DecidableEq, Repr

/-- A face: an ordered triple of vertex indices
(the source stores `[p1, p2, p3]` lists of `int`). -/
structure Face where
  i : Nat
  j : Nat
  k : Nat
deriving DecidableEq, Repr

/-- The shared mutable state of one generation run: the growable
`vertices` and `faces` lists of the source. -/
structure Mesh (F : Type) where
  vertices : List (Point3 F)
  faces : List Face

/-- Abstract interface for the transcendental functions used by the
samplers (`math.pi`, `math.sin`, `math.cos`).  The mesh index structure is
independent of the interpretation. -/
structure GeomOps (F : Type) where
  pi : F
  sin : F → F
  cos : F → F

/-- Line 18: `base_resolution = int(math.sqrt(num_triangles / 10))`. -/
def base_resolution (num_triangles : Nat) : Nat :=
  Nat.sqrt (num_triangles / 10)

/-- Lines 41–55: rim point `i` of the cone base (radius 8), with the
sinusoidal noise term `0.5 * sin(10 θ)` added along `(cos θ, sin θ)`. -/
def coneRimPoint {F : Type} [Field F] (ops : GeomOps F) (resolution i : Nat) :
    Point3 F :=
  let theta : F := 2 * ops.pi * (i : F) / (resolution : F)
  let noise : F := (1 / 2) * ops.sin (10 * theta)
  { x := 8 * ops.cos theta + noise * ops.cos theta
    y := 8 * ops.sin theta + noise * ops.sin theta
    z := 0 }

/-- Lines 28–72: the cone body.  Vertices: apex `[0,0,15]`, `resolution`
rim points, then the base-center `[0,0,0]` (index `resolution + 1`).
Faces: `resolution` side triangles `(0, 1+i, 1+((i+1) % resolution))`
followed by `resolution` cap triangles with reversed winding. -/
def coneBodyMesh {F : Type} [Field F] (ops : GeomOps F) (resolution : Nat) :
    Mesh F :=
  { vertices := ⟨0, 0, 15⟩ ::
      ((List.range resolution).map (coneRimPoint ops resolution) ++ [⟨0, 0, 0⟩])
    faces :=
      ((List.range resolution).map fun i =>
        ⟨0, 1 + i, 1 + ((i + 1) % resolution)⟩) ++
      ((List.range resolution).map fun i =>
        ⟨resolution + 1, 1 + ((i + 1) % resolution), 1 + i⟩) }

/-- Lines 84–90: the X-axis pyramid template (base at `x = cone_radius = 8`,
tip at `x = 8 + 12 = 20`, half-width 1). -/
def xAxisVerts {F : Type} [Field F] : List (Point3 F) :=
  [⟨8, 1, 1⟩, ⟨8, -1, 1⟩, ⟨8, -1, -1⟩, ⟨8, 1, -1⟩, ⟨20, 0, 0⟩]

/-- Lines 114–120: the Y-axis pyramid template. -/
def yAxisVerts {F : Type} [Field F] : List (Point3 F) :=
  [⟨1, 8, 1⟩, ⟨-1, 8, 1⟩, ⟨-1, 8, -1⟩, ⟨1, 8, -1⟩, ⟨0, 20, 0⟩]

/-- Lines 144–150: the Z-axis pyramid template (base at `z = 15`,
tip at `z = 15 + 12 = 27`). -/
def zAxisVerts {F : Type} [Field F] : List (Point3 F) :=
  [⟨1, 1, 15⟩, ⟨-1, 1, 15⟩, ⟨-1, -1, 15⟩, ⟨1, -1, 15⟩, ⟨0, 0, 27⟩]

/-- Lines 96–106 (and identically 126–136, 156–166): the 6-face pyramid
index template `[[0,1,4],[1,2,4],[2,3,4],[3,0,4],[0,3,1],[1,3,2]]`,
shifted by the vertex offset. -/
def pyramidFaces (off : Nat) : List Face :=
  [⟨off, off + 1, off + 4⟩, ⟨off + 1, off + 2, off + 4⟩,
   ⟨off + 2, off + 3, off + 4⟩, ⟨off + 3, off, off + 4⟩,
   ⟨off, off + 3, off + 1⟩, ⟨off + 1, off + 3, off + 2⟩]

/-- Lines 77–169: append the three axis-marker pyramids (X, Y, Z), each
5 vertices and 6 faces, with `vertex_offset` re-read from `len(vertices)`
before each block. -/
def addAxisMarkers {F : Type} [Field F] (m : Mesh F) : Mesh F :=
  let L := m.vertices.length
  { vertices := m.vertices ++ xAxisVerts ++ yAxisVerts ++ zAxisVerts
    faces := m.faces ++ pyramidFaces L ++ pyramidFaces (L + 5) ++
      pyramidFaces (L + 10) }

/-- Four sampled corner points of one quad cell. -/
def Quad (F : Type) : Type := Point3 F × Point3 F × Point3 F × Point3 F

/-- One iteration of the quad-cell loop body (lines 230–239, 284–293,
489–507): record `v_idx = len(vertices)`, append the 4 fresh corner
vertices, append the triangles `[v, v+1, v+2]` and `[v+1, v+3, v+2]`. -/
def pushCell {F : Type} (m : Mesh F) (q : Quad F) : Mesh F :=
  let v := m.vertices.length
  { vertices := m.vertices ++ [q.1, q.2.1, q.2.2.1, q.2.2.2]
    faces := m.faces ++ [⟨v, v + 1, v + 2⟩, ⟨v + 1, v + 3, v + 2⟩] }

/-- Sequential execution of the quad-cell loop over its iteration list. -/
def pushCells {F : Type} : Mesh F → List (Quad F) → Mesh F
  | m, [] => m
  | m, q :: qs => pushCells (pushCell m q) qs

/-- Lines 182–228: the four corner points of arrow-patch cell `(i, j, k)`
(angular slot `i`, height step `j`, width step `k`), for the given base
resolution.  `arrow_height = 15 * 0.7`, `arrow_width = 8 * 0.5 = 4`,
patch ring radius `8 * 0.8`, base height `15 * 0.3`.  (`arrow_depth = 0.3`
is defined by the source but never used.) -/
def arrowCellPoints {F : Type} [Field F] (ops : GeomOps F) (resolution : Nat)
    (c : Nat × Nat × Nat) : Quad F :=
  let aRes := resolution / 10
  let dRes := resolution / 20
  let angle : F := 2 * ops.pi * (c.1 : F) / (aRes : F)
  let cx : F := 8 * (8 / 10) * ops.cos angle
  let cy : F := 8 * (8 / 10) * ops.sin angle
  let cz : F := 15 * (3 / 10)
  let t1 : F := (c.2.1 : F) / (dRes : F)
  let t2 : F := ((c.2.1 + 1 : Nat) : F) / (dRes : F)
  let s1 : F := (c.2.2 : F) / (dRes : F)
  let s2 : F := ((c.2.2 + 1 : Nat) : F) / (dRes : F)
  let wf1 : F := 1 - t1
  let wf2 : F := 1 - t2
  let aw : F := 8 * (1 / 2)
  let ah : F := 15 * (7 / 10)
  (⟨cx + aw * wf1 * (s1 - 1 / 2) * ops.cos angle,
    cy + aw * wf1 * (s1 - 1 / 2) * ops.sin angle, cz + t1 * ah⟩,
   ⟨cx + aw * wf1 * (s2 - 1 / 2) * ops.cos angle,
    cy + aw * wf1 * (s2 - 1 / 2) * ops.sin angle, cz + t1 * ah⟩,
   ⟨cx + aw * wf2 * (s1 - 1 / 2) * ops.cos angle,
    cy + aw * wf2 * (s1 - 1 / 2) * ops.sin angle, cz + t2 * ah⟩,
   ⟨cx + aw * wf2 * (s2 - 1 / 2) * ops.cos angle,
    cy + aw * wf2 * (s2 - 1 / 2) * ops.sin angle, cz + t2 * ah⟩)

/-- The iteration sequence of the triple arrow-patch loop (lines 182–194):
`i < arrow_resolution = base_resolution // 10`, then
`j, k < detail_res = base_resolution // 20`. -/
def arrowCells (resolution : Nat) : List (Nat × Nat × Nat) :=
  (List.range (resolution / 10)).flatMap fun i =>
    (List.range (resolution / 20)).flatMap fun j =>
      (List.range (resolution / 20)).map fun k => (i, j, k)

/-- Lines 171–239: the arrow-patch stage. -/
def arrowStage {F : Type} [Field F] (ops : GeomOps F) (resolution : Nat)
    (m : Mesh F) : Mesh F :=
  pushCells m ((arrowCells resolution).map (arrowCellPoints ops resolution))

/-- Lines 252–289: the four corner points of spiral texture cell `(i, j)`
(`phi` step `i < spiral_res_phi`, `theta` step `j < spiral_res_theta`). -/
def spiralCellPoints {F : Type} [Field F] (ops : GeomOps F)
    (sTheta sPhi : Nat) (c : Nat × Nat) : Quad F :=
  let phi : F := ops.pi * (c.1 : F) / (sPhi : F)
  let r1 : F := 8 * (1 - phi / ops.pi)
  let z1 : F := 15 * phi / ops.pi
  let theta : F := 2 * ops.pi * (c.2 : F) / (sTheta : F) + phi * 10
  let theta2 : F := 2 * ops.pi * ((c.2 + 1 : Nat) : F) / (sTheta : F) + phi * 10
  let phi2 : F := ops.pi * ((c.1 + 1 : Nat) : F) / (sPhi : F)
  let r2 : F := 8 * (1 - phi2 / ops.pi)
  let z2 : F := 15 * phi2 / ops.pi
  (⟨r1 * ops.cos theta, r1 * ops.sin theta, z1⟩,
   ⟨r1 * ops.cos theta2, r1 * ops.sin theta2, z1⟩,
   ⟨r2 * ops.cos theta, r2 * ops.sin theta, z2⟩,
   ⟨r2 * ops.cos theta2, r2 * ops.sin theta2, z2⟩)

/-- The iteration sequence of the spiral double loop (lines 252–257). -/
def spiralCells (sTheta sPhi : Nat) : List (Nat × Nat) :=
  (List.range sPhi).flatMap fun i => (List.range sTheta).map fun j => (i, j)

/-- Lines 241–293: the texture-fill stage.
`remaining_triangles = num_triangles - len(faces)` (a possibly negative
Python `int`); the stage runs only when it is `> 0`, with
`spiral_res_theta = int(sqrt(remaining / 10))` and
`spiral_res_phi = spiral_res_theta * 10`. -/
def spiralStage {F : Type} [Field F] (ops : GeomOps F) (num_triangles : Nat)
    (m : Mesh F) : Mesh F :=
  let remaining : Int := (num_triangles : Int) - (m.faces.length : Int)
  if 0 < remaining then
    let sTheta := Nat.sqrt (remaining.toNat / 10)
    let sPhi := sTheta * 10
    pushCells m ((spiralCells sTheta sPhi).map (spiralCellPoints ops sTheta sPhi))
  else m

/-- The cone model state after the fixed-cost stages (cone body, three
axis markers, arrow patches) and before the texture-fill stage. -/
def coneFixedStages {F : Type} [Field F] (ops : GeomOps F)
    (num_triangles : Nat) : Mesh F :=
  arrowStage ops (base_resolution num_triangles)
    (addAxisMarkers (coneBodyMesh ops (base_resolution num_triangles)))

/-- Lines 5–317: `create_directional_model` — the full cone-family mesh
(vertex and face buffers exactly as serialized). -/
def create_directional_model {F : Type} [Field F] (ops : GeomOps F)
    (num_triangles : Nat) : Mesh F :=
  spiralStage ops num_triangles (coneFixedStages ops num_triangles)

/-- Lines 344–345: `np.linspace(-10, 10, n)` entry `j` — for `n ≥ 2` this is
`-10 + 20 * j / (n - 1)`; for `n = 1` NumPy returns `[-10.0]`. -/
def linspace10 {F : Type} [Field F] (n j : Nat) : F :=
  if n ≤ 1 then -10 else -10 + 20 * (j : F) / ((n : F) - 1)

/-- Lines 348–354: terrain height at grid row `i` (the `y` axis), column
`j` (the `x` axis): the sum over frequencies `[1,2,3,5,8,13]` of
`sin(x * f) * cos(y * f) / f`, plus the northward bias `y * 0.1`.
(`x_grid[i, j] = x[j]`, `y_grid[i, j] = y[i]` from `np.meshgrid`.) -/
def terrainHeight {F : Type} [Field F] (ops : GeomOps F)
    (width height i j : Nat) : F :=
  let xv : F := linspace10 width j
  let yv : F := linspace10 height i
  (([1, 2, 3, 5, 8, 13] : List Nat).foldl
    (fun acc f => acc + ops.sin (xv * (f : F)) * ops.cos (yv * (f : F)) / (f : F))
    0) + yv * (1 / 10)

/-- Lines 357–359: the row-major grid of terrain vertices
(`i` over `range height`, `j` over `range width`). -/
def terrainGridVerts {F : Type} [Field F] (ops : GeomOps F)
    (width height : Nat) : List (Point3 F) :=
  (List.range height).flatMap fun i =>
    (List.range width).map fun j =>
      ⟨linspace10 width j, linspace10 height i, terrainHeight ops width height i j⟩

/-- Lines 361–371: the grid faces.  For cell `(i, j)` with
`p1 = i * width + j`, `p2 = p1 + 1`, `p3 = (i+1) * width + j`,
`p4 = p3 + 1`, the two triangles `[p1, p2, p3]` and `[p2, p4, p3]`. -/
def terrainGridFaces (width height : Nat) : List Face :=
  (List.range (height - 1)).flatMap fun i =>
    (List.range (width - 1)).flatMap fun j =>
      [⟨i * width + j, i * width + j + 1, (i + 1) * width + j⟩,
       ⟨i * width + j + 1, (i + 1) * width + j + 1, (i + 1) * width + j⟩]

/-- The mesh after the terrain grid stage. -/
def terrainGridMesh {F : Type} [Field F] (ops : GeomOps F)
    (width height : Nat) : Mesh F :=
  { vertices := terrainGridVerts ops width height
    faces := terrainGridFaces width height }

/-- Lines 395–404: the 8 vertices of one corner pylon box
(`marker_size = 1.0`, `marker_height = 2.0`). -/
def markerBoxVerts {F : Type} [Field F] (cx cy cz : F) : List (Point3 F) :=
  [⟨cx - 1 / 2, cy - 1 / 2, cz⟩, ⟨cx + 1 / 2, cy - 1 / 2, cz⟩,
   ⟨cx + 1 / 2, cy + 1 / 2, cz⟩, ⟨cx - 1 / 2, cy + 1 / 2, cz⟩,
   ⟨cx - 1 / 2, cy - 1 / 2, cz + 2⟩, ⟨cx + 1 / 2, cy - 1 / 2, cz + 2⟩,
   ⟨cx + 1 / 2, cy + 1 / 2, cz + 2⟩, ⟨cx - 1 / 2, cy + 1 / 2, cz + 2⟩]

/-- Lines 411–421: the 12-face box index template, shifted by `v_idx`. -/
def markerBoxFaces (v : Nat) : List Face :=
  [⟨v, v + 2, v + 1⟩, ⟨v, v + 3, v + 2⟩,
   ⟨v, v + 1, v + 5⟩, ⟨v, v + 5, v + 4⟩,
   ⟨v + 1, v + 2, v + 6⟩, ⟨v + 1, v + 6, v + 5⟩,
   ⟨v + 2, v + 3, v + 7⟩, ⟨v + 2, v + 7, v + 6⟩,
   ⟨v + 3, v, v + 4⟩, ⟨v + 3, v + 4, v + 7⟩,
   ⟨v + 4, v + 5, v + 6⟩, ⟨v + 4, v + 6, v + 7⟩]

/-- One iteration of the corner-marker loop (lines 389–424). -/
def pushMarkerBox {F : Type} [Field F] (m : Mesh F) (c : F × F × F) : Mesh F :=
  let v := m.vertices.length
  { vertices := m.vertices ++ markerBoxVerts c.1 c.2.1 c.2.2
    faces := m.faces ++ markerBoxFaces v }

/-- Lines 380–385: the four corner-marker centers, with base elevation
taken from the corresponding corner of `z_grid`
(`z_grid[0,0]`, `z_grid[0,-1]`, `z_grid[-1,0]`, `z_grid[-1,-1]`). -/
def cornerMarkers {F : Type} [Field F] (ops : GeomOps F)
    (width height : Nat) : List (F × F × F) :=
  [(-10, -10, terrainHeight ops width height 0 0),
   (10, -10, terrainHeight ops width height 0 (width - 1)),
   (-10, 10, terrainHeight ops width height (height - 1) 0),
   (10, 10, terrainHeight ops width height (height - 1) (width - 1))]

/-- Lines 376–424: the corner-pylon stage (4 boxes, 8 vertices and
12 faces each). -/
def pylonStage {F : Type} [Field F] (ops : GeomOps F) (width height : Nat)
    (m : Mesh F) : Mesh F :=
  (cornerMarkers ops width height).foldl pushMarkerBox m

/-- Lines 426–468: the central direction arrow: one base-center vertex,
20 base-circle vertices (`arrow_resolution = 20`, `arrow_radius = 2.0`),
one tip vertex at `[0, 4, z + 3]`, then 20 base-fan triangles and 20
side-fan triangles. -/
def centralArrowStage {F : Type} [Field F] (ops : GeomOps F)
    (width height : Nat) (m : Mesh F) : Mesh F :=
  let zc : F := terrainHeight ops width height (height / 2) (width / 2)
  let C := m.vertices.length
  { vertices := m.vertices ++ [⟨0, 0, zc⟩] ++
      ((List.range 20).map fun (i : Nat) =>
        let theta : F := 2 * ops.pi * (i : F) / 20
        ⟨2 * ops.cos theta, 2 * ops.sin theta, zc⟩) ++
      [⟨0, 2 * 2, zc + 3⟩]
    faces := m.faces ++
      ((List.range 20).map fun i => ⟨C, C + 1 + i, C + 1 + ((i + 1) % 20)⟩) ++
      ((List.range 20).map fun i =>
        ⟨C + 21, C + 1 + i, C + 1 + ((i + 1) % 20)⟩) }

/-- Lines 470–507: the two axis-line quads (`axis_width = 0.3`,
`axis_height = 0.5`); each appends 4 vertices and the standard cell pair
of triangles, exactly the `pushCell` pattern. -/
def axisLinesStage {F : Type} [Field F] (ops : GeomOps F)
    (width height : Nat) (m : Mesh F) : Mesh F :=
  let zx1 : F := terrainHeight ops width height (height / 2) 0 + 1 / 2
  let zx2 : F := terrainHeight ops width height (height / 2) (width - 1) + 1 / 2
  let zy1 : F := terrainHeight ops width height 0 (width / 2) + 1 / 2
  let zy2 : F := terrainHeight ops width height (height - 1) (width / 2) + 1 / 2
  pushCell
    (pushCell m
      (⟨-(19 / 2), -(3 / 10), zx1⟩, ⟨-(19 / 2), 3 / 10, zx1⟩,
       ⟨19 / 2, -(3 / 10), zx2⟩, ⟨19 / 2, 3 / 10, zx2⟩))
    (⟨-(3 / 10), -(19 / 2), zy1⟩, ⟨3 / 10, -(19 / 2), zy1⟩,
     ⟨-(3 / 10), 19 / 2, zy2⟩, ⟨3 / 10, 19 / 2, zy2⟩)

/-- The full terrain mesh, assuming the NumPy stages did not raise. -/
def terrainMeshRaw {F : Type} [Field F] (ops : GeomOps F)
    (width height : Nat) : Mesh F :=
  axisLinesStage ops width height
    (centralArrowStage ops width height
      (pylonStage ops width height (terrainGridMesh ops width height)))

/-- Lines 319–531: `create_complex_oriented_terrain`.  Returns `some` mesh
when the run completes; `none` when the Python code raises before any face
is serialized: for `width ≠ height` the in-place broadcast
`z_grid += ...` (lines 350–354) raises `ValueError` because `z_grid` is
allocated with shape `(width, height)` while the meshgrid arrays have
shape `(height, width)`, and for `width = height = 0` the lookup
`z_grid[0, 0]` (line 381) raises `IndexError`. -/
def create_complex_oriented_terrain {F : Type} [Field F] (ops : GeomOps F)
    (width height : Nat) : Option (Mesh F) :=
  if width = height ∧ 1 ≤ width then some (terrainMeshRaw ops width height)
  else none

/-- The arrow-patch face count of `create_directional_model`:
`2 * (b // 10) * (b // 20)^2` triangles for base resolution `b`. -/
def arrowFaceCount (b : Nat) : Nat :=
  2 * ((b / 10) * ((b / 20) * (b / 20)))

/-- Faces emitted by the fixed-cost cone stages at base resolution `b`:
`2 b` cone triangles, 18 axis-marker triangles, and the arrow patches. -/
def coneFixedFaceCount (b : Nat) : Nat :=
  2 * b + 18 + arrowFaceCount b

/-- Closed form for the total face count of `create_directional_model`. -/
def coneFaceCount (T : Nat) : Nat :=
  if coneFixedFaceCount (base_resolution T) < T then
    coneFixedFaceCount (base_resolution T) +
      2 * (Nat.sqrt ((T - coneFixedFaceCount (base_resolution T)) / 10) * 10 *
        Nat.sqrt ((T - coneFixedFaceCount (base_resolution T)) / 10))
  else coneFixedFaceCount (base_resolution T)

/-- A face is a valid reference into a vertex buffer of length `n`. -/
def FaceValid (n : Nat) (f : Face) : Prop :=
  f.i < n ∧ f.j < n ∧ f.k < n

instance (n : Nat) (f : Face) : Decidable (FaceValid n f) := by
  unfold FaceValid; infer_instance

/-- Every face of the mesh is a valid reference into its vertex buffer. -/
def MeshValid {F : Type} (m : Mesh F) : Prop :=
  ∀ f ∈ m.faces, FaceValid m.vertices.length f

instance {F : Type} (m : Mesh F) : Decidable (MeshValid m) := by
  unfold MeshValid; infer_instance

/-- No two of the three indices of the face are equal. -/
def FaceDistinct (f : Face) : Prop :=
  f.i ≠ f.j ∧ f.i ≠ f.k ∧ f.j ≠ f.k

instance (f : Face) : Decidable (FaceDistinct f) := by
  unfold FaceDistinct; infer_instance

/-- A concrete interpretation of the transcendental functions over `ℚ`,
used to instantiate witnesses (the index structure of the meshes does not
depend on it). -/
def qOps : GeomOps ℚ :=
  { pi := 0, sin := fun _ => 0, cos := fun _ => 0 }

/-! ## Helper lemmas -/

/-- Characterization of `Nat.sqrt` used to evaluate it at concrete inputs
(the Newton-iteration definition does not reduce in the kernel). -/
lemma sqrtEq (k n : Nat) (h1 : k * k ≤ n) (h2 : n < (k + 1) * (k + 1)) :
    Nat.sqrt n = k :=
  Nat.le_antisymm (Nat.lt_succ_iff.mp (Nat.sqrt_lt.mpr h2)) (Nat.le_sqrt.mpr h1)

/-- In a ring of at least two elements, `i` and its wrapped successor
`(i+1) % r` differ whenever `i < r` and `2 ≤ r`. -/
lemma modSuccNe (r i : Nat) (h2 : 2 ≤ r) (hi : i < r) : i ≠ (i + 1) % r := by
  rcases Nat.lt_or_ge (i + 1) r with h | h
  · rw [Nat.mod_eq_of_lt h]; omega
  · have he : i + 1 = r := by omega
    rw [he, Nat.mod_self]; omega

/-- Length of a `flatMap` whose blocks all have the same length. -/
lemma lengthFlatMapConst {α β : Type} (l : List α) (f : α → List β) (c : Nat)
    (h : ∀ a, (f a).length = c) : (l.flatMap f).length = l.length * c := by
  induction l with
  | nil => simp
  | cons a t ih => simp [List.flatMap_cons, ih, h a]; ring

/-- `flatMap` after `map` is a `flatMap` of the composition. -/
lemma flatMapMap {α β γ : Type} (l : List α) (f : α → β) (g : β → List γ) :
    (l.map f).flatMap g = l.flatMap fun a => g (f a) := by
  induction l with
  | nil => rfl
  | cons a t ih => simp [List.flatMap_cons, ih]

/-- The two faces appended for one quad cell whose first fresh vertex has
index `v` (lines 238–239, 292–293, 496–497, 506–507). -/
def cellFacesAt (v : Nat) : List Face :=
  [⟨v, v + 1, v + 2⟩, ⟨v + 1, v + 3, v + 2⟩]

lemma pushCell_faces {F : Type} (m : Mesh F) (q : Quad F) :
    (pushCell m q).faces = m.faces ++ cellFacesAt m.vertices.length := rfl

lemma pushCell_vertices_length {F : Type} (m : Mesh F) (q : Quad F) :
    (pushCell m q).vertices.length = m.vertices.length + 4 := by
  simp [pushCell]

lemma pushCells_vertices_length {F : Type} (m : Mesh F) (qs : List (Quad F)) :
    (pushCells m qs).vertices.length = m.vertices.length + 4 * qs.length := by
  induction qs generalizing m with
  | nil => simp [pushCells]
  | cons q t ih => rw [pushCells, ih, pushCell_vertices_length]; simp; ring

lemma pushCells_faces {F : Type} (m : Mesh F) (qs : List (Quad F)) :
    (pushCells m qs).faces =
      m.faces ++ (List.range qs.length).flatMap
        (fun c => cellFacesAt (m.vertices.length + 4 * c)) := by
  induction qs generalizing m with
  | nil => simp [pushCells]
  | cons q t ih =>
    rw [pushCells, ih, pushCell_faces, pushCell_vertices_length,
      List.length_cons, List.range_succ_eq_map, List.flatMap_cons,
      flatMapMap]
    have he : (fun c => cellFacesAt (m.vertices.length + 4 + 4 * c)) =
        fun a => cellFacesAt (m.vertices.length + 4 * Nat.succ a) := by
      funext a; congr 1; omega
    rw [he]
    have hz : cellFacesAt (m.vertices.length + 4 * 0) =
        cellFacesAt m.vertices.length := by norm_num
    rw [hz, List.append_assoc]

lemma pushCells_faces_length {F : Type} (m : Mesh F) (qs : List (Quad F)) :
    (pushCells m qs).faces.length = m.faces.length + 2 * qs.length := by
  rw [pushCells_faces, List.length_append,
    lengthFlatMapConst (List.range qs.length)
      (fun c => cellFacesAt (m.vertices.length + 4 * c)) 2 (fun c => rfl),
    List.length_range]
  ring

/-! ## Validity (index-in-range) lemmas -/

lemma FaceValid.mono {n n2 : Nat} {f : Face} (h : n ≤ n2) (hf : FaceValid n f) :
    FaceValid n2 f := by
  obtain ⟨h1, h2, h3⟩ := hf
  exact ⟨lt_of_lt_of_le h1 h, lt_of_lt_of_le h2 h, lt_of_lt_of_le h3 h⟩

lemma coneBodyMesh_vertices_length {F : Type} [Field F] (ops : GeomOps F)
    (r : Nat) : (coneBodyMesh ops r).vertices.length = r + 2 := by
  simp [coneBodyMesh]

lemma coneBodyMesh_faces_length {F : Type} [Field F] (ops : GeomOps F)
    (r : Nat) : (coneBodyMesh ops r).faces.length = 2 * r := by
  simp [coneBodyMesh]; ring

lemma coneBodyMesh_valid {F : Type} [Field F] (ops : GeomOps F) (r : Nat) :
    MeshValid (coneBodyMesh ops r) := by
  intro f hf
  rw [coneBodyMesh_vertices_length]
  simp only [coneBodyMesh, List.mem_append, List.mem_map, List.mem_range] at hf
  rcases hf with ⟨i, hi, rfl⟩ | ⟨i, hi, rfl⟩ <;>
  · have hm := Nat.mod_lt (i + 1) (show 0 < r by omega)
    exact ⟨by dsimp; omega, by dsimp; omega, by dsimp; omega⟩

lemma addAxisMarkers_vertices_length {F : Type} [Field F] (m : Mesh F) :
    (addAxisMarkers m).vertices.length = m.vertices.length + 15 := by
  simp [addAxisMarkers, xAxisVerts, yAxisVerts, zAxisVerts]

lemma addAxisMarkers_faces {F : Type} [Field F] (m : Mesh F) :
    (addAxisMarkers m).faces = m.faces ++ pyramidFaces m.vertices.length ++
      pyramidFaces (m.vertices.length + 5) ++
      pyramidFaces (m.vertices.length + 10) := rfl

lemma addAxisMarkers_faces_length {F : Type} [Field F] (m : Mesh F) :
    (addAxisMarkers m).faces.length = m.faces.length + 18 := by
  rw [addAxisMarkers_faces]; simp [pyramidFaces]

lemma pyramidFaces_valid (off n : Nat) (h : off + 5 ≤ n) :
    ∀ f ∈ pyramidFaces off, FaceValid n f := by
  intro f hf
  simp only [pyramidFaces, List.mem_cons, List.not_mem_nil, or_false] at hf
  rcases hf with rfl | rfl | rfl | rfl | rfl | rfl <;>
    exact ⟨by dsimp; omega, by dsimp; omega, by dsimp; omega⟩

lemma addAxisMarkers_valid {F : Type} [Field F] {m : Mesh F}
    (h : MeshValid m) : MeshValid (addAxisMarkers m) := by
  intro f hf
  rw [addAxisMarkers_vertices_length]
  rw [addAxisMarkers_faces] at hf
  simp only [List.mem_append] at hf
  rcases hf with ((hf | hf) | hf) | hf
  · exact (h f hf).mono (by omega)
  · exact pyramidFaces_valid _ _ (by omega) f hf
  · exact pyramidFaces_valid _ _ (by omega) f hf
  · exact pyramidFaces_valid _ _ (by omega) f hf

lemma pushCell_valid {F : Type} {m : Mesh F} (h : MeshValid m) (q : Quad F) :
    MeshValid (pushCell m q) := by
  intro f hf
  rw [pushCell_vertices_length]
  rw [pushCell_faces] at hf
  rcases List.mem_append.mp hf with hf | hf
  · exact (h f hf).mono (by omega)
  · simp only [cellFacesAt, List.mem_cons, List.not_mem_nil, or_false] at hf
    rcases hf with rfl | rfl <;>
      exact ⟨by dsimp; omega, by dsimp; omega, by dsimp; omega⟩

lemma pushCells_valid {F : Type} {m : Mesh F} (h : MeshValid m)
    (qs : List (Quad F)) : MeshValid (pushCells m qs) := by
  induction qs generalizing m with
  | nil => exact h
  | cons q t ih => exact ih (pushCell_valid h q)

lemma spiralStage_valid {F : Type} [Field F] (ops : GeomOps F) (T : Nat)
    {m : Mesh F} (h : MeshValid m) : MeshValid (spiralStage ops T m) := by
  simp only [spiralStage]
  split
  · exact pushCells_valid h _
  · exact h

lemma arrowCells_length (r : Nat) :
    (arrowCells r).length = r / 10 * (r / 20 * (r / 20)) := by
  unfold arrowCells
  rw [lengthFlatMapConst (List.range (r / 10))
      (fun i => (List.range (r / 20)).flatMap fun j =>
        (List.range (r / 20)).map fun k => (i, j, k)) (r / 20 * (r / 20))
      (fun i => by
        rw [lengthFlatMapConst (List.range (r / 20))
          (fun j => (List.range (r / 20)).map fun k => (i, j, k)) (r / 20)
          (fun j => by rw [List.length_map, List.length_range]),
          List.length_range]),
    List.length_range]

lemma spiralCells_length (sTheta sPhi : Nat) :
    (spiralCells sTheta sPhi).length = sPhi * sTheta := by
  unfold spiralCells
  rw [lengthFlatMapConst (List.range sPhi)
      (fun i => (List.range sTheta).map fun j => (i, j)) sTheta
      (fun i => by rw [List.length_map, List.length_range]),
    List.length_range]

lemma arrowStage_faces_length {F : Type} [Field F] (ops : GeomOps F)
    (r : Nat) (m : Mesh F) :
    (arrowStage ops r m).faces.length =
      m.faces.length + 2 * (r / 10 * (r / 20 * (r / 20))) := by
  unfold arrowStage
  rw [pushCells_faces_length, List.length_map, arrowCells_length]

lemma arrowStage_valid {F : Type} [Field F] (ops : GeomOps F) (r : Nat)
    {m : Mesh F} (h : MeshValid m) : MeshValid (arrowStage ops r m) :=
  pushCells_valid h _

lemma coneFixedStages_faces_length {F : Type} [Field F] (ops : GeomOps F)
    (T : Nat) : (coneFixedStages ops T).faces.length =
      coneFixedFaceCount (base_resolution T) := by
  unfold coneFixedStages coneFixedFaceCount arrowFaceCount
  rw [arrowStage_faces_length, addAxisMarkers_faces_length,
    coneBodyMesh_faces_length]

/-- Shared helper: the face count of the full cone model equals the closed
form `coneFaceCount`. -/
lemma coneModel_faces_length {F : Type} [Field F] (ops : GeomOps F)
    (T : Nat) :
    (create_directional_model ops T).faces.length = coneFaceCount T := by
  unfold create_directional_model coneFaceCount
  simp only [spiralStage]
  by_cases h : coneFixedFaceCount (base_resolution T) < T
  · have hc : (0 : Int) < (T : Int) -
        ((coneFixedStages ops T).faces.length : Int) := by
      rw [coneFixedStages_faces_length]; omega
    rw [if_pos hc, if_pos h, pushCells_faces_length, List.length_map,
      spiralCells_length, coneFixedStages_faces_length]
    have ht : ((T : Int) -
        (coneFixedFaceCount (base_resolution T) : Int)).toNat =
        T - coneFixedFaceCount (base_resolution T) := by omega
    rw [ht]
  · have hc : ¬ ((0 : Int) < (T : Int) -
        ((coneFixedStages ops T).faces.length : Int)) := by
      rw [coneFixedStages_faces_length]; omega
    rw [if_neg hc, if_neg h, coneFixedStages_faces_length]

/-- Shared helper: the full cone model is index-valid. -/
lemma coneModel_valid {F : Type} [Field F] (ops : GeomOps F) (T : Nat) :
    MeshValid (create_directional_model ops T) :=
  spiralStage_valid ops T
    (arrowStage_valid ops _ (addAxisMarkers_valid (coneBodyMesh_valid ops _)))

/-! ## Terrain lemmas -/

lemma terrainGridVerts_length {F : Type} [Field F] (ops : GeomOps F)
    (w h : Nat) : (terrainGridVerts ops w h).length = h * w := by
  unfold terrainGridVerts
  rw [lengthFlatMapConst (List.range h) _ w
      (fun i => by rw [List.length_map, List.length_range]),
    List.length_range]

lemma terrainGridFaces_length (w h : Nat) :
    (terrainGridFaces w h).length = 2 * ((w - 1) * (h - 1)) := by
  unfold terrainGridFaces
  rw [lengthFlatMapConst (List.range (h - 1)) _ ((w - 1) * 2)
      (fun i => by
        rw [lengthFlatMapConst (List.range (w - 1))
          (fun j =>
            [Face.mk (i * w + j) (i * w + j + 1) ((i + 1) * w + j),
             Face.mk (i * w + j + 1) ((i + 1) * w + j + 1)
               ((i + 1) * w + j)]) 2 (fun j => rfl),
          List.length_range]),
    List.length_range]
  ring

lemma gridIdxLt (w h i j : Nat) (hi : i < h) (hj : j < w) :
    i * w + j < h * w :=
  calc i * w + j < i * w + w := by omega
  _ = (i + 1) * w := by ring
  _ ≤ h * w := Nat.mul_le_mul_right w hi

lemma terrainGridMesh_valid {F : Type} [Field F] (ops : GeomOps F)
    (w h : Nat) : MeshValid (terrainGridMesh ops w h) := by
  intro f hf
  show FaceValid (terrainGridMesh ops w h).vertices.length f
  have hv : (terrainGridMesh ops w h).vertices.length = h * w := by
    dsimp only [terrainGridMesh]; exact terrainGridVerts_length ops w h
  rw [hv]
  dsimp only [terrainGridMesh] at hf
  unfold terrainGridFaces at hf
  simp only [List.mem_flatMap, List.mem_range, List.mem_cons,
    List.not_mem_nil, or_false] at hf
  obtain ⟨i, hi, j, hj, hf⟩ := hf
  rcases hf with rfl | rfl
  · exact ⟨by dsimp; exact gridIdxLt w h i j (by omega) (by omega),
      by dsimp; exact gridIdxLt w h i (j + 1) (by omega) (by omega),
      by dsimp; exact gridIdxLt w h (i + 1) j (by omega) (by omega)⟩
  · exact ⟨by dsimp; exact gridIdxLt w h i (j + 1) (by omega) (by omega),
      by dsimp; exact gridIdxLt w h (i + 1) (j + 1) (by omega) (by omega),
      by dsimp; exact gridIdxLt w h (i + 1) j (by omega) (by omega)⟩

lemma markerBoxFaces_valid (v n : Nat) (h : v + 8 ≤ n) :
    ∀ f ∈ markerBoxFaces v, FaceValid n f := by
  intro f hf
  simp only [markerBoxFaces, List.mem_cons, List.not_mem_nil, or_false] at hf
  rcases hf with rfl | rfl | rfl | rfl | rfl | rfl | rfl | rfl | rfl | rfl |
    rfl | rfl <;>
    exact ⟨by dsimp; omega, by dsimp; omega, by dsimp; omega⟩

lemma pushMarkerBox_valid {F : Type} [Field F] {m : Mesh F}
    (h : MeshValid m) (c : F × F × F) : MeshValid (pushMarkerBox m c) := by
  intro f hf
  have hv : (pushMarkerBox m c).vertices.length = m.vertices.length + 8 := by
    simp [pushMarkerBox, markerBoxVerts]
  rw [hv]
  have hfa : (pushMarkerBox m c).faces =
      m.faces ++ markerBoxFaces m.vertices.length := rfl
  rw [hfa] at hf
  rcases List.mem_append.mp hf with hf | hf
  · exact (h f hf).mono (by omega)
  · exact markerBoxFaces_valid _ _ (by omega) f hf

lemma foldl_pushMarkerBox_valid {F : Type} [Field F] (cs : List (F × F × F))
    {m : Mesh F} (h : MeshValid m) :
    MeshValid (cs.foldl pushMarkerBox m) := by
  induction cs generalizing m with
  | nil => exact h
  | cons c t ih => exact ih (pushMarkerBox_valid h c)

lemma centralArrowStage_valid {F : Type} [Field F] (ops : GeomOps F)
    (w h : Nat) {m : Mesh F} (hm : MeshValid m) :
    MeshValid (centralArrowStage ops w h m) := by
  intro f hf
  have hv : (centralArrowStage ops w h m).vertices.length =
      m.vertices.length + 22 := by
    simp only [centralArrowStage, List.length_append, List.length_cons,
      List.length_nil, List.length_map, List.length_range,
      List.length_singleton]
  rw [hv]
  have hfa : (centralArrowStage ops w h m).faces = m.faces ++
      ((List.range 20).map fun i =>
        Face.mk m.vertices.length (m.vertices.length + 1 + i)
          (m.vertices.length + 1 + ((i + 1) % 20))) ++
      ((List.range 20).map fun i =>
        Face.mk (m.vertices.length + 21) (m.vertices.length + 1 + i)
          (m.vertices.length + 1 + ((i + 1) % 20))) := rfl
  rw [hfa] at hf
  rcases List.mem_append.mp hf with hf | hf2
  · rcases List.mem_append.mp hf with hf | hf1
    · exact (hm f hf).mono (by omega)
    · simp only [List.mem_map, List.mem_range] at hf1
      obtain ⟨i, hi, rfl⟩ := hf1
      have hmod := Nat.mod_lt (i + 1) (show 0 < 20 by omega)
      exact ⟨by dsimp; omega, by dsimp; omega, by dsimp; omega⟩
  · simp only [List.mem_map, List.mem_range] at hf2
    obtain ⟨i, hi, rfl⟩ := hf2
    have hmod := Nat.mod_lt (i + 1) (show 0 < 20 by omega)
    exact ⟨by dsimp; omega, by dsimp; omega, by dsimp; omega⟩

lemma axisLinesStage_valid {F : Type} [Field F] (ops : GeomOps F)
    (w h : Nat) {m : Mesh F} (hm : MeshValid m) :
    MeshValid (axisLinesStage ops w h m) :=
  pushCell_valid (pushCell_valid hm _) _

/-- Shared helper: the full terrain mesh is index-valid. -/
lemma terrainMeshRaw_valid {F : Type} [Field F] (ops : GeomOps F)
    (w h : Nat) : MeshValid (terrainMeshRaw ops w h) := by
  unfold terrainMeshRaw pylonStage
  exact axisLinesStage_valid ops w h
    (centralArrowStage_valid ops w h
      (foldl_pushMarkerBox_valid _ (terrainGridMesh_valid ops w h)))

/-! ## Non-degeneracy (pairwise-distinct index) lemmas -/

/-- Every face of the mesh has pairwise-distinct indices. -/
def MeshDistinct {F : Type} (m : Mesh F) : Prop :=
  ∀ f ∈ m.faces, FaceDistinct f

instance {F : Type} (m : Mesh F) : Decidable (MeshDistinct m) := by
  unfold MeshDistinct; infer_instance

lemma coneBodyMesh_distinct {F : Type} [Field F] (ops : GeomOps F)
    {r : Nat} (hr : r ≠ 1) : MeshDistinct (coneBodyMesh ops r) := by
  intro f hf
  simp only [coneBodyMesh, List.mem_append, List.mem_map, List.mem_range] at hf
  rcases hf with ⟨i, hi, rfl⟩ | ⟨i, hi, rfl⟩ <;>
  · have hne := modSuccNe r i (by omega) hi
    have hmod := Nat.mod_lt (i + 1) (show 0 < r by omega)
    exact ⟨by dsimp; omega, by dsimp; omega, by dsimp; omega⟩

lemma pyramidFaces_distinct (off : Nat) :
    ∀ f ∈ pyramidFaces off, FaceDistinct f := by
  intro f hf
  simp only [pyramidFaces, List.mem_cons, List.not_mem_nil, or_false] at hf
  rcases hf with rfl | rfl | rfl | rfl | rfl | rfl <;>
    exact ⟨by dsimp; omega, by dsimp; omega, by dsimp; omega⟩

lemma addAxisMarkers_distinct {F : Type} [Field F] {m : Mesh F}
    (h : MeshDistinct m) : MeshDistinct (addAxisMarkers m) := by
  intro f hf
  rw [addAxisMarkers_faces] at hf
  simp only [List.mem_append] at hf
  rcases hf with ((hf | hf) | hf) | hf
  · exact h f hf
  · exact pyramidFaces_distinct _ f hf
  · exact pyramidFaces_distinct _ f hf
  · exact pyramidFaces_distinct _ f hf

lemma pushCell_distinct {F : Type} {m : Mesh F} (h : MeshDistinct m)
    (q : Quad F) : MeshDistinct (pushCell m q) := by
  intro f hf
  rw [pushCell_faces] at hf
  rcases List.mem_append.mp hf with hf | hf
  · exact h f hf
  · simp only [cellFacesAt, List.mem_cons, List.not_mem_nil, or_false] at hf
    rcases hf with rfl | rfl <;>
      exact ⟨by dsimp; omega, by dsimp; omega, by dsimp; omega⟩

lemma pushCells_distinct {F : Type} {m : Mesh F} (h : MeshDistinct m)
    (qs : List (Quad F)) : MeshDistinct (pushCells m qs) := by
  induction qs generalizing m with
  | nil => exact h
  | cons q t ih => exact ih (pushCell_distinct h q)

lemma spiralStage_distinct {F : Type} [Field F] (ops : GeomOps F) (T : Nat)
    {m : Mesh F} (h : MeshDistinct m) : MeshDistinct (spiralStage ops T m) := by
  simp only [spiralStage]
  split
  · exact pushCells_distinct h _
  · exact h

/-- Shared helper: for base resolution different from 1 every face of the
cone model has pairwise-distinct indices. -/
lemma coneModel_distinct {F : Type} [Field F] (ops : GeomOps F) {T : Nat}
    (hb : base_resolution T ≠ 1) :
    MeshDistinct (create_directional_model ops T) :=
  spiralStage_distinct ops T
    (pushCells_distinct
      (addAxisMarkers_distinct (coneBodyMesh_distinct ops hb)) _)

lemma terrainGridMesh_distinct {F : Type} [Field F] (ops : GeomOps F)
    (w h : Nat) : MeshDistinct (terrainGridMesh ops w h) := by
  intro f hf
  dsimp only [terrainGridMesh] at hf
  unfold terrainGridFaces at hf
  simp only [List.mem_flatMap, List.mem_range, List.mem_cons,
    List.not_mem_nil, or_false] at hf
  obtain ⟨i, hi, j, hj, hf⟩ := hf
  have he : (i + 1) * w = i * w + w := by ring
  rcases hf with rfl | rfl <;>
    exact ⟨by dsimp; omega, by dsimp; rw [he]; omega,
      by dsimp; rw [he]; omega⟩

lemma markerBoxFaces_distinct (v : Nat) :
    ∀ f ∈ markerBoxFaces v, FaceDistinct f := by
  intro f hf
  simp only [markerBoxFaces, List.mem_cons, List.not_mem_nil, or_false] at hf
  rcases hf with rfl | rfl | rfl | rfl | rfl | rfl | rfl | rfl | rfl | rfl |
    rfl | rfl <;>
    exact ⟨by dsimp; omega, by dsimp; omega, by dsimp; omega⟩

lemma pushMarkerBox_distinct {F : Type} [Field F] {m : Mesh F}
    (h : MeshDistinct m) (c : F × F × F) :
    MeshDistinct (pushMarkerBox m c) := by
  intro f hf
  have hfa : (pushMarkerBox m c).faces =
      m.faces ++ markerBoxFaces m.vertices.length := rfl
  rw [hfa] at hf
  rcases List.mem_append.mp hf with hf | hf
  · exact h f hf
  · exact markerBoxFaces_distinct _ f hf

lemma foldl_pushMarkerBox_distinct {F : Type} [Field F]
    (cs : List (F × F × F)) {m : Mesh F} (h : MeshDistinct m) :
    MeshDistinct (cs.foldl pushMarkerBox m) := by
  induction cs generalizing m with
  | nil => exact h
  | cons c t ih => exact ih (pushMarkerBox_distinct h c)

lemma centralArrowStage_distinct {F : Type} [Field F] (ops : GeomOps F)
    (w h : Nat) {m : Mesh F} (hm : MeshDistinct m) :
    MeshDistinct (centralArrowStage ops w h m) := by
  intro f hf
  have hfa : (centralArrowStage ops w h m).faces = m.faces ++
      ((List.range 20).map fun i =>
        Face.mk m.vertices.length (m.vertices.length + 1 + i)
          (m.vertices.length + 1 + ((i + 1) % 20))) ++
      ((List.range 20).map fun i =>
        Face.mk (m.vertices.length + 21) (m.vertices.length + 1 + i)
          (m.vertices.length + 1 + ((i + 1) % 20))) := rfl
  rw [hfa] at hf
  rcases List.mem_append.mp hf with hf | hf2
  · rcases List.mem_append.mp hf with hf | hf1
    · exact hm f hf
    · simp only [List.mem_map, List.mem_range] at hf1
      obtain ⟨i, hi, rfl⟩ := hf1
      have hne := modSuccNe 20 i (by omega) hi
      have hmod := Nat.mod_lt (i + 1) (show 0 < 20 by omega)
      exact ⟨by dsimp; omega, by dsimp; omega, by dsimp; omega⟩
  · simp only [List.mem_map, List.mem_range] at hf2
    obtain ⟨i, hi, rfl⟩ := hf2
    have hne := modSuccNe 20 i (by omega) hi
    have hmod := Nat.mod_lt (i + 1) (show 0 < 20 by omega)
    exact ⟨by dsimp; omega, by dsimp; omega, by dsimp; omega⟩

/-- Shared helper: every face of the terrain mesh has pairwise-distinct
indices. -/
lemma terrainMeshRaw_distinct {F : Type} [Field F] (ops : GeomOps F)
    (w h : Nat) : MeshDistinct (terrainMeshRaw ops w h) := by
  unfold terrainMeshRaw pylonStage axisLinesStage
  exact pushCell_distinct
    (pushCell_distinct
      (centralArrowStage_distinct ops w h
        (foldl_pushMarkerBox_distinct _ (terrainGridMesh_distinct ops w h))) _) _

/-! ## Claim theorems -/

/-- **C1**: For every generated mesh (cone family at any target, terrain
family whenever generation completes), every index of every face in the
final face buffer is in range `[0, vertex_count)` of the final vertex
buffer. -/
theorem spec_C1 {F : Type} [Field F] (ops : GeomOps F) :
    (∀ T : Nat, MeshValid (create_directional_model ops T)) ∧
    (∀ w h : Nat, ∀ m : Mesh F,
      create_complex_oriented_terrain ops w h = some m → MeshValid m) := by
  refine ⟨fun T => coneModel_valid ops T, fun w h m hm => ?_⟩
  unfold create_complex_oriented_terrain at hm
  split at hm
  · cases hm
    exact terrainMeshRaw_valid ops w h
  · cases hm

/-- Witness for C1: index validity evaluated at the cone model with
target 20 and the terrain model with a 2 × 2 grid. -/
theorem spec_C1_witness :
    MeshValid (create_directional_model qOps 20) ∧
    MeshValid (terrainMeshRaw qOps 2 2) := by
  refine ⟨(spec_C1 qOps).1 20,
    (spec_C1 qOps).2 2 2 (terrainMeshRaw qOps 2 2) ?_⟩
  unfold create_complex_oriented_terrain
  rw [if_pos]
  exact ⟨rfl, by omega⟩

/-- **C2** counterexample: at target 10 the base resolution is 1              
(no clamping to a minimum of 3 exists anywhere in the code), and the very
first cone face is `[0, 1, 1]`, whose second and third indices
coincide. -/
theorem spec_C2_counterexample :
    Face.mk 0 1 1 ∈ (create_directional_model qOps 10).faces ∧
    ¬ FaceDistinct (Face.mk 0 1 1) := by
  constructor
  · decide
  · decide

/-- **C2** (amended): the code never clamps resolution parameters; every
emitted face has three pairwise-distinct indices provided the cone base
resolution `⌊√(T/10)⌋` is not 1 (for `10 ≤ T ≤ 39` the cone body emits
degenerate faces), and unconditionally for the terrain generator whenever
it completes. -/
theorem spec_C2_amended {F : Type} [Field F] (ops : GeomOps F) :
    (∀ T : Nat, base_resolution T ≠ 1 →
      MeshDistinct (create_directional_model ops T)) ∧
    (∀ w h : Nat, ∀ m : Mesh F,
      create_complex_oriented_terrain ops w h = some m → MeshDistinct m) := by
  refine ⟨fun T hb => coneModel_distinct ops hb, fun w h m hm => ?_⟩
  unfold create_complex_oriented_terrain at hm
  split at hm
  · cases hm
    exact terrainMeshRaw_distinct ops w h
  · cases hm

/-- Witness for the amended C2: non-degeneracy evaluated at cone target 40
(base resolution 2) and at the 3 × 3 terrain grid. -/
theorem spec_C2_witness :
    MeshDistinct (create_directional_model qOps 40) ∧
    MeshDistinct (terrainMeshRaw qOps 3 3) := by
  constructor
  · apply (spec_C2_amended qOps).1 40
    have hb : base_resolution 40 = 2 := by
      unfold base_resolution
      rw [show (40 : Nat) / 10 = 4 by norm_num]
      exact sqrtEq 2 4 (by norm_num) (by norm_num)
    omega
  · refine (spec_C2_amended qOps).2 3 3 (terrainMeshRaw qOps 3 3) ?_
    unfold create_complex_oriented_terrain
    rw [if_pos]
    exact ⟨rfl, by omega⟩

/-- **C3**: after the cone body, the three axis markers and the arrow
patches, the texture-fill stage receives the budget
`T - faces_emitted_so_far`; it is skipped entirely when that budget is
`≤ 0`, and otherwise runs with `spiral_res_theta = ⌊√(remaining/10)⌋`
and `spiral_res_phi = spiral_res_theta * 10`. -/
theorem spec_C3 {F : Type} [Field F] (ops : GeomOps F) (T : Nat) :
    ((T : Int) - ((coneFixedStages ops T).faces.length : Int) ≤ 0 →
      create_directional_model ops T = coneFixedStages ops T) ∧
    (0 < (T : Int) - ((coneFixedStages ops T).faces.length : Int) →
      create_directional_model ops T =
        pushCells (coneFixedStages ops T)
          ((spiralCells
              (Nat.sqrt ((((T : Int) -
                ((coneFixedStages ops T).faces.length : Int)).toNat) / 10))
              (Nat.sqrt ((((T : Int) -
                ((coneFixedStages ops T).faces.length : Int)).toNat) / 10) *
                10)).map
            (spiralCellPoints ops
              (Nat.sqrt ((((T : Int) -
                ((coneFixedStages ops T).faces.length : Int)).toNat) / 10))
              (Nat.sqrt ((((T : Int) -
                ((coneFixedStages ops T).faces.length : Int)).toNat) / 10) *
                10)))) := by
  unfold create_directional_model
  simp only [spiralStage]
  constructor
  · intro h
    rw [if_neg (show ¬ (0 : Int) <
      (T : Int) - ((coneFixedStages ops T).faces.length : Int) by omega)]
  · intro h
    rw [if_pos h]

/-- Witness for C3: at target 1 the budget is `1 - 18 < 0` and the stage
is skipped; at target 100 the fixed stages emit 24 faces, the budget is
76 > 0 and the spiral stage runs. -/
theorem spec_C3_witness :
    create_directional_model qOps 1 = coneFixedStages qOps 1 ∧
    create_directional_model qOps 100 =
      pushCells (coneFixedStages qOps 100)
        ((spiralCells
            (Nat.sqrt ((((100 : Int) -
              ((coneFixedStages qOps 100).faces.length : Int)).toNat) / 10))
            (Nat.sqrt ((((100 : Int) -
              ((coneFixedStages qOps 100).faces.length : Int)).toNat) / 10) *
              10)).map
          (spiralCellPoints qOps
            (Nat.sqrt ((((100 : Int) -
              ((coneFixedStages qOps 100).faces.length : Int)).toNat) / 10))
            (Nat.sqrt ((((100 : Int) -
              ((coneFixedStages qOps 100).faces.length : Int)).toNat) / 10) *
              10))) := by
  constructor
  · exact (spec_C3 qOps 1).1 (by decide)
  · refine (spec_C3 qOps 100).2 ?_
    have hb : base_resolution 100 = 3 := by
      unfold base_resolution
      rw [show (100 : Nat) / 10 = 10 by norm_num]
      exact sqrtEq 3 10 (by norm_num) (by norm_num)
    have hlen : (coneFixedStages qOps 100).faces.length = 24 := by
      rw [coneFixedStages_faces_length, hb]
      decide
    rw [hlen]
    decide

/-- **C5**: the cone generator computes its resolution once as
`base_resolution = ⌊√(T/10)⌋` and uses that value for the cone body and
the arrow stage; for `T = 10,000,000` the computed resolution is exactly
1000. -/
theorem spec_C5 {F : Type} [Field F] (ops : GeomOps F) :
    base_resolution 10000000 = 1000 ∧
    ∀ T : Nat, create_directional_model ops T =
      spiralStage ops T (arrowStage ops (base_resolution T)
        (addAxisMarkers (coneBodyMesh ops (base_resolution T)))) := by
  constructor
  · unfold base_resolution
    rw [show (10000000 : Nat) / 10 = 1000000 by norm_num]
    exact sqrtEq 1000 1000000 (by norm_num) (by norm_num)
  · intro T
    rfl

/-- **C4** counterexample: the total emitted face count is not monotone in
the target.  At the default target itself: `T = 9,999,999` emits
19,489,914 faces while `T = 10,000,000` emits only 19,475,538 — raising
the target by one DECREASES the output by 14,376 triangles (the base
resolution jumps from 999 to 1000, the fixed stages grow from 477,414 to
502,018 faces, and the spiral resolution drops from 975 to 974). -/
theorem spec_C4_counterexample :
    9999999 ≤ 10000000 ∧
    (create_directional_model qOps 10000000).faces.length <
      (create_directional_model qOps 9999999).faces.length := by
  have h1 : coneFaceCount 9999999 = 19489914 := by
    have hb : base_resolution 9999999 = 999 := by
      unfold base_resolution
      rw [show (9999999 : Nat) / 10 = 999999 by norm_num]
      exact sqrtEq 999 999999 (by norm_num) (by norm_num)
    have hfb : coneFixedFaceCount 999 = 477414 := by
      norm_num [coneFixedFaceCount, arrowFaceCount]
    have hs : Nat.sqrt ((9999999 - 477414) / 10) = 975 := by
      rw [show (9999999 - 477414) / 10 = 952258 by norm_num]
      exact sqrtEq 975 952258 (by norm_num) (by norm_num)
    unfold coneFaceCount
    rw [hb, hfb, if_pos (by norm_num), hs]
  have h2 : coneFaceCount 10000000 = 19475538 := by
    have hb : base_resolution 10000000 = 1000 := by
      unfold base_resolution
      rw [show (10000000 : Nat) / 10 = 1000000 by norm_num]
      exact sqrtEq 1000 1000000 (by norm_num) (by norm_num)
    have hfb : coneFixedFaceCount 1000 = 502018 := by
      norm_num [coneFixedFaceCount, arrowFaceCount]
    have hs : Nat.sqrt ((10000000 - 502018) / 10) = 974 := by
      rw [show (10000000 - 502018) / 10 = 949798 by norm_num]
      exact sqrtEq 974 949798 (by norm_num) (by norm_num)
    unfold coneFaceCount
    rw [hb, hfb, if_pos (by norm_num), hs]
  refine ⟨by norm_num, ?_⟩
  rw [coneModel_faces_length, coneModel_faces_length, h1, h2]
  norm_num

/-- **C4** (amended): the emitted face count is monotone in the target
within each base-resolution band: for `T1 ≤ T2` with
`⌊√(T1/10)⌋ = ⌊√(T2/10)⌋` the cone model at `T1` emits at most as many
faces as at `T2`.  (Across bands monotonicity fails, see the
counterexample.) -/
theorem spec_C4_amended {F : Type} [Field F] (ops : GeomOps F)
    (T1 T2 : Nat) (h12 : T1 ≤ T2)
    (hb : base_resolution T1 = base_resolution T2) :
    (create_directional_model ops T1).faces.length ≤
      (create_directional_model ops T2).faces.length := by
  rw [coneModel_faces_length, coneModel_faces_length]
  unfold coneFaceCount
  rw [hb]
  by_cases h1 : coneFixedFaceCount (base_resolution T2) < T1
  · rw [if_pos h1,
      if_pos (show coneFixedFaceCount (base_resolution T2) < T2 by omega)]
    have hs : Nat.sqrt ((T1 - coneFixedFaceCount (base_resolution T2)) / 10) ≤
        Nat.sqrt ((T2 - coneFixedFaceCount (base_resolution T2)) / 10) :=
      Nat.sqrt_le_sqrt (Nat.div_le_div_right (Nat.sub_le_sub_right h12 _))
    have hm := Nat.mul_le_mul (Nat.mul_le_mul hs (le_refl 10)) hs
    omega
  · rw [if_neg h1]
    split <;> omega

/-- Witness for the amended C4: targets 50 and 60 share base
resolution 2, and the face count at 50 is at most the count at 60. -/
theorem spec_C4_witness :
    (create_directional_model qOps 50).faces.length ≤
      (create_directional_model qOps 60).faces.length := by
  apply spec_C4_amended qOps 50 60 (by norm_num)
  have h5 : base_resolution 50 = 2 := by
    unfold base_resolution
    rw [show (50 : Nat) / 10 = 5 by norm_num]
    exact sqrtEq 2 5 (by norm_num) (by norm_num)
  have h6 : base_resolution 60 = 2 := by
    unfold base_resolution
    rw [show (60 : Nat) / 10 = 6 by norm_num]
    exact sqrtEq 2 6 (by norm_num) (by norm_num)
  rw [h5, h6]

/-- **C6**: the grid-stage face loop (lines 361–371) does emit exactly
`2 * (width-1) * (height-1)` faces with the split `(p1,p2,p3),(p2,p4,p3)`
— as `terrainGridFaces` embeds — but the generator never reaches it for
`width ≠ height`: `z_grid` is allocated with shape `(width, height)`
(line 349) while the meshgrid arrays have shape `(height, width)`, so the
in-place `z_grid += ...` raises a NumPy broadcast `ValueError` and no
face is emitted; e.g. width = 2, height = 3 produces no mesh. -/
theorem spec_C6_bug :
    create_complex_oriented_terrain qOps 2 3 = none ∧
    ∀ w h : Nat, (terrainGridFaces w h).length = 2 * ((w - 1) * (h - 1)) := by
  constructor
  · unfold create_complex_oriented_terrain
    rw [if_neg (show ¬ ((2 : Nat) = 3 ∧ 1 ≤ 2) by omega)]
  · exact terrainGridFaces_length

set_option maxRecDepth 40000 in
/-- **C7**: the terrain generator at width = height = 10 produces exactly
254 faces: 162 after the grid stage (2·9·9), 210 after the four corner
pylons (+48), 250 after the central arrow (+40), 254 after the two
axis-line quads (+4). -/
theorem spec_C7 :
    (create_complex_oriented_terrain qOps 10 10).map
      (fun m => m.faces.length) = some 254 ∧
    (terrainGridMesh qOps 10 10).faces.length = 162 ∧
    (pylonStage qOps 10 10 (terrainGridMesh qOps 10 10)).faces.length = 210 ∧
    (centralArrowStage qOps 10 10
      (pylonStage qOps 10 10 (terrainGridMesh qOps 10 10))).faces.length =
      250 := by
  refine ⟨?_, by decide, by decide, by decide⟩
  unfold create_complex_oriented_terrain
  rw [if_pos ⟨rfl, by omega⟩]
  have h254 : (terrainMeshRaw qOps 10 10).faces.length = 254 := by decide
  rw [show Option.map (fun (m : Mesh ℚ) => m.faces.length)
      (some (terrainMeshRaw qOps 10 10)) =
      some ((terrainMeshRaw qOps 10 10).faces.length) from rfl, h254]

/-- **C8** counterexample: a zero triangle target is not rejected — the
cone generator runs to completion and produces a non-empty face buffer
(which the program then writes to the output file). -/
theorem spec_C8_counterexample :
    (create_directional_model qOps 0).faces ≠ [] := by decide

/-- **C8** (amended): the program performs no configuration validation.
A zero triangle target is accepted: the cone generator completes normally
and produces a well-formed (index-valid) mesh of exactly the 18
axis-marker faces over 17 vertices, which is then written to the output
file.  (A negative target instead dies on line 18 with an uncaught
`math domain error`; the terrain generator dies with uncaught NumPy
errors on zero/negative grid dimensions.) -/
theorem spec_C8_amended :
    (create_directional_model qOps 0).faces.length = 18 ∧
    (create_directional_model qOps 0).vertices.length = 17 ∧
    MeshValid (create_directional_model qOps 0) :=
  ⟨by decide, by decide, coneModel_valid qOps 0⟩

/-- **C9**: every sampler (cone-rim point, arrow-patch points, spiral
points, terrain height) and both generators are deterministic, stateless
functions of their inputs: evaluations at equal inputs are equal, so two
runs with identical parameters produce identical vertex and face
buffers. -/
theorem spec_C9 {F : Type} [Field F] (ops : GeomOps F) :
    (∀ r i1 i2 : Nat, i1 = i2 →
      coneRimPoint ops r i1 = coneRimPoint ops r i2) ∧
    (∀ r : Nat, ∀ c1 c2 : Nat × Nat × Nat, c1 = c2 →
      arrowCellPoints ops r c1 = arrowCellPoints ops r c2) ∧
    (∀ s p : Nat, ∀ c1 c2 : Nat × Nat, c1 = c2 →
      spiralCellPoints ops s p c1 = spiralCellPoints ops s p c2) ∧
    (∀ w h i1 j1 i2 j2 : Nat, i1 = i2 → j1 = j2 →
      terrainHeight ops w h i1 j1 = terrainHeight ops w h i2 j2) ∧
    (∀ T1 T2 : Nat, T1 = T2 →
      create_directional_model ops T1 = create_directional_model ops T2) ∧
    (∀ w1 h1 w2 h2 : Nat, w1 = w2 → h1 = h2 →
      create_complex_oriented_terrain ops w1 h1 =
        create_complex_oriented_terrain ops w2 h2) := by
  refine ⟨?_, ?_, ?_, ?_, ?_, ?_⟩ <;> intros <;> subst_vars <;> rfl

/-- Witness for C9: determinism evaluated at concrete sampler inputs and
concrete generator parameters. -/
theorem spec_C9_witness :
    coneRimPoint qOps 5 2 = coneRimPoint qOps 5 2 ∧
    create_directional_model qOps 7 = create_directional_model qOps 7 ∧
    create_complex_oriented_terrain qOps 4 4 =
      create_complex_oriented_terrain qOps 4 4 :=
  ⟨(spec_C9 qOps).1 5 2 2 rfl, (spec_C9 qOps).2.2.2.2.1 7 7 rfl,
   (spec_C9 qOps).2.2.2.2.2 4 4 4 4 rfl rfl⟩

/-- **C10**: whenever the texture-fill stage runs (remaining budget
`R > 0`), it appends exactly the faces of `10·s²` fresh quad cells
(`s = ⌊√(R/10)⌋`): `2·s·(10 s) = 20·s²` faces in total, each cell
referencing only its own 4 fresh vertices (no sharing between cells), and
exactly `40·s²` new vertices. -/
theorem spec_C10 {F : Type} [Field F] (ops : GeomOps F) (T : Nat)
    (h : 0 < (T : Int) - ((coneFixedStages ops T).faces.length : Int)) :
    (create_directional_model ops T).faces =
      (coneFixedStages ops T).faces ++
        (List.range
            (Nat.sqrt ((((T : Int) -
                ((coneFixedStages ops T).faces.length : Int)).toNat) / 10) *
              10 *
              Nat.sqrt ((((T : Int) -
                ((coneFixedStages ops T).faces.length : Int)).toNat) /
                10))).flatMap
          (fun c =>
            cellFacesAt ((coneFixedStages ops T).vertices.length + 4 * c)) ∧
    (create_directional_model ops T).faces.length =
      (coneFixedStages ops T).faces.length +
        20 * (Nat.sqrt ((((T : Int) -
          ((coneFixedStages ops T).faces.length : Int)).toNat) / 10)) ^ 2 ∧
    (create_directional_model ops T).vertices.length =
      (coneFixedStages ops T).vertices.length +
        40 * (Nat.sqrt ((((T : Int) -
          ((coneFixedStages ops T).faces.length : Int)).toNat) / 10)) ^ 2 := by
  unfold create_directional_model
  simp only [spiralStage]
  rw [if_pos h]
  refine ⟨?_, ?_, ?_⟩
  · rw [pushCells_faces, List.length_map, spiralCells_length]
  · rw [pushCells_faces_length, List.length_map, spiralCells_length]
    ring
  · rw [pushCells_vertices_length, List.length_map, spiralCells_length]
    ring

/-- Witness for C10: at target 100 the fixed stages emit 24 faces; the
remaining budget is 76, the spiral resolution is `⌊√7⌋ = 2`, and the
stage appends 80 faces and 160 vertices. -/
theorem spec_C10_witness :
    (create_directional_model qOps 100).faces =
      (coneFixedStages qOps 100).faces ++
        (List.range
            (Nat.sqrt ((((100 : Int) -
                ((coneFixedStages qOps 100).faces.length : Int)).toNat) / 10) *
              10 *
              Nat.sqrt ((((100 : Int) -
                ((coneFixedStages qOps 100).faces.length : Int)).toNat) /
                10))).flatMap
          (fun c =>
            cellFacesAt ((coneFixedStages qOps 100).vertices.length + 4 * c)) ∧
    (create_directional_model qOps 100).faces.length =
      (coneFixedStages qOps 100).faces.length +
        20 * (Nat.sqrt ((((100 : Int) -
          ((coneFixedStages qOps 100).faces.length : Int)).toNat) / 10)) ^ 2 ∧
    (create_directional_model qOps 100).vertices.length =
      (coneFixedStages qOps 100).vertices.length +
        40 * (Nat.sqrt ((((100 : Int) -
          ((coneFixedStages qOps 100).faces.length : Int)).toNat) / 10)) ^ 2 := by
  apply spec_C10 qOps 100
  have hb : base_resolution 100 = 3 := by
    unfold base_resolution
    rw [show (100 : Nat) / 10 = 10 by norm_num]
    exact sqrtEq 3 10 (by norm_num) (by norm_num)
  have hlen : (coneFixedStages qOps 100).faces.length = 24 := by
    rw [coneFixedStages_faces_length, hb]
    decide
  rw [hlen]
  decide
